import Mathlib

/-!
Shallow embedding of the session/streaming client of the larkbing
repository (src/lib/bing-chat.ts, two bundled variants of the BingChat
class) together with theorems settling the frozen claims about it.

Variant 1 is the class at lines 13-277 (accumulating `updateMessages`,
single-flight `initConversation`); variant 2 is the class at lines
289-562 (single `result` message, `this.ws!` non-null assertions).
-/

namespace LarkBing

/-- One incremental message fragment from the backend
(`types.ChatMessagePartial`): `messageId`, `author`, optional
`messageType` (absent for normal chat text) and `text`. -/
structure ChatMessagePartial where
  messageId : String
  author : String
  messageType : Option String
  text : String
deriving DecidableEq, Repr

/-- Merge of one type-1 fragment into the accumulated list
(bing-chat.ts lines 189-196): `findIndex` on `messageId`; if no prior
fragment has this id the fragment is pushed at the end, otherwise the
first fragment with this id is replaced in place.  Written as the
equivalent structural recursion on the list. -/
def mergeUpdate : List ChatMessagePartial → ChatMessagePartial → List ChatMessagePartial
  | [], m => [m]
  | x :: rest, m =>
      if x.messageId = m.messageId then m :: rest
      else x :: mergeUpdate rest m

/-- The accumulated `updateMessages` list after a sequence of type-1
fragments, starting from the empty list (bing-chat.ts line 77). -/
def accumulate (frames : List ChatMessagePartial) : List ChatMessagePartial :=
  frames.foldl mergeUpdate []

/-- Modelled from the spec: the ordered sequence of distinct ids in
first-seen order ("The ordered sequence of distinct messageIds as first
seen defines display order").  Used to compare the code's accumulator
against the spec's wording. -/
def firstSeenIds (ids : List String) : List String :=
  ids.foldl (fun acc i => if i ∈ acc then acc else acc ++ [i]) []

/-- Modelled from the spec: the last fragment received bearing a given
`messageId` ("the final accumulated fragment for that id equals the
last one received"). -/
def lastWrite (frames : List ChatMessagePartial) (id : String) :
    Option ChatMessagePartial :=
  (frames.filter (fun m => m.messageId == id)).getLast?

theorem mergeUpdate_map_messageId (l : List ChatMessagePartial)
    (m : ChatMessagePartial) :
    (mergeUpdate l m).map (fun x => x.messageId) =
      if m.messageId ∈ l.map (fun x => x.messageId) then
        l.map (fun x => x.messageId)
      else l.map (fun x => x.messageId) ++ [m.messageId] := by
  induction l with
  | nil => simp [mergeUpdate]
  | cons x rest ih =>
      by_cases h : x.messageId = m.messageId
      · simp [mergeUpdate, h]
      · have h2 : m.messageId ≠ x.messageId := fun hc => h hc.symm
        simp only [mergeUpdate, if_neg h, List.map_cons, ih]
        by_cases hmem : m.messageId ∈ rest.map (fun x => x.messageId)
        · simp [hmem, h2]
        · simp [hmem, h2]

theorem mergeUpdate_find_same (l : List ChatMessagePartial)
    (m : ChatMessagePartial) :
    (mergeUpdate l m).find? (fun x => x.messageId == m.messageId) = some m := by
  induction l with
  | nil => simp [mergeUpdate]
  | cons x rest ih =>
      by_cases h : x.messageId = m.messageId
      · simp [mergeUpdate, h]
      · simp [mergeUpdate, h, List.find?, ih]

theorem mergeUpdate_find_other (l : List ChatMessagePartial)
    (m : ChatMessagePartial) (id : String) (hne : m.messageId ≠ id) :
    (mergeUpdate l m).find? (fun x => x.messageId == id) =
      l.find? (fun x => x.messageId == id) := by
  have hbm : (m.messageId == id) = false := beq_eq_false_iff_ne.mpr hne
  induction l with
  | nil => simp [mergeUpdate, List.find?, hbm]
  | cons x rest ih =>
      by_cases h : x.messageId = m.messageId
      · have hbx : (x.messageId == id) = false :=
          beq_eq_false_iff_ne.mpr (h ▸ hne)
        simp [mergeUpdate, if_pos h, List.find?, hbm, hbx]
      · by_cases hx : x.messageId = id
        · have hbx : (x.messageId == id) = true := beq_iff_eq.mpr hx
          simp [mergeUpdate, if_neg h, List.find?, hbx]
        · have hbx : (x.messageId == id) = false :=
            beq_eq_false_iff_ne.mpr hx
          simp [mergeUpdate, if_neg h, List.find?, hbx, ih]

theorem accumulate_concat (fs : List ChatMessagePartial)
    (m : ChatMessagePartial) :
    accumulate (fs ++ [m]) = mergeUpdate (accumulate fs) m := by
  simp [accumulate, List.foldl_append]

theorem accumulate_find (frames : List ChatMessagePartial) (id : String) :
    (accumulate frames).find? (fun x => x.messageId == id) =
      lastWrite frames id := by
  induction frames using List.reverseRecOn with
  | nil => simp [accumulate, lastWrite]
  | append_singleton fs m ih =>
      rw [accumulate_concat]
      by_cases h : m.messageId = id
      · subst h
        rw [mergeUpdate_find_same]
        simp [lastWrite]
      · rw [mergeUpdate_find_other _ _ _ h, ih]
        simp [lastWrite, h]

theorem accumulate_ids_aux (frames : List ChatMessagePartial)
    (acc : List ChatMessagePartial) :
    (frames.foldl mergeUpdate acc).map (fun x => x.messageId) =
      (frames.map (fun x => x.messageId)).foldl
        (fun a i => if i ∈ a then a else a ++ [i])
        (acc.map (fun x => x.messageId)) := by
  induction frames generalizing acc with
  | nil => simp
  | cons m rest ih =>
      simp only [List.foldl_cons, List.map_cons, ih,
        mergeUpdate_map_messageId]

theorem accumulate_ids (frames : List ChatMessagePartial) :
    (accumulate frames).map (fun x => x.messageId) =
      firstSeenIds (frames.map (fun x => x.messageId)) := by
  simpa [accumulate, firstSeenIds] using accumulate_ids_aux frames []

/-- C1: within one exchange, the accumulated fragment list maps each
distinct `messageId` to the last fragment received with that id (a
later fragment with an already-seen id replaces the stored fragment
in place), and in every progress snapshot (the accumulator after any
prefix of the fragment stream) the order of distinct ids equals the
order in which they were first seen. -/
theorem c1_last_write_wins_first_seen_order
    (frames : List ChatMessagePartial) (id : String) (k : Nat) :
    (accumulate frames).find? (fun x => x.messageId == id) =
      lastWrite frames id ∧
    (accumulate (frames.take k)).map (fun x => x.messageId) =
      firstSeenIds ((frames.take k).map (fun x => x.messageId)) := by
  refine ⟨accumulate_find frames id, ?_⟩
  simpa [List.map_take] using accumulate_ids (frames.take k)

/-- The mutable fields of a `BingChat` instance (bing-chat.ts lines
20-31 for variant 1; variant 2, lines 296-305, has the same fields
except `initializingConversation` and `initConversationCallback`,
which variant 2 code never touches).  `ws` is `some ()` when a
WebSocket object is assigned, timers are modelled by their absolute
deadline in milliseconds, and `initConversationCallback` holds the
caller ids of the registered resolve/reject pairs. -/
structure BingChatState where
  ws : Option Unit
  initializingConversation : Bool
  initConversationCallback : List Nat
  conversationExpired : Bool
  conversationId : Option String
  clientId : Option String
  conversationSignature : Option String
  isStartOfSession : Bool
  conversationTimer : Option Nat
  respondTimer : Option Nat
deriving DecidableEq, Repr

/-- The field values after variant 1's `cleanup` has run (bing-chat.ts
lines 41-55): timers cleared, socket dropped, all handle and
single-flight state reset, `conversationExpired = true`. -/
def clearedState : BingChatState :=
  { ws := none
    initializingConversation := false
    initConversationCallback := []
    conversationExpired := true
    conversationId := none
    clientId := none
    conversationSignature := none
    isStartOfSession := true
    conversationTimer := none
    respondTimer := none }

/-- Variant 1's `cleanup` (bing-chat.ts lines 41-55): `clearTimeout`
on both timers, `this.ws?.terminate()` (optional chaining, a no-op
when `ws` is absent), then every field is overwritten with its
cleared value. -/
def cleanup (_s : BingChatState) : BingChatState := clearedState

/-- The error text of a JavaScript `TypeError` raised by
`this.ws!.terminate()` when `this.ws` is `undefined`. -/
def wsUndefinedError : String :=
  "TypeError: Cannot read properties of undefined (reading terminate)"

/-- Variant 2's `cleanup` (bing-chat.ts lines 315-327): identical to
variant 1's except that it calls `this.ws!.terminate()` with a
non-null assertion, which throws a `TypeError` at runtime when no
WebSocket is assigned; it also does not touch the single-flight
fields, which do not exist in variant 2. -/
def cleanup2 (s : BingChatState) : Except String BingChatState :=
  match s.ws with
  | none => Except.error wsUndefinedError
  | some _ =>
      Except.ok
        { s with
          ws := none
          conversationExpired := true
          conversationId := none
          clientId := none
          conversationSignature := none
          isStartOfSession := true
          conversationTimer := none
          respondTimer := none }

/-- The delay, in milliseconds, that `resetConversationTimer` passes
to `setTimeout` (bing-chat.ts lines 271-276 and 556-561): the literal
`3600 * 24`. -/
def conversationTimerDelayMs : Nat := 3600 * 24

/-- Re-arming of the conversation timer (bing-chat.ts lines 271-276
and 556-561): clear the previous timer and schedule `cleanup` after
`conversationTimerDelayMs` milliseconds. -/
def resetConversationTimer (now : Nat) (s : BingChatState) : BingChatState :=
  { s with conversationTimer := some (now + conversationTimerDelayMs) }

/-- Firing of the conversation timer: its callback just runs
`cleanup` (bing-chat.ts lines 273-275). -/
def fireConversationTimer (s : BingChatState) : BingChatState :=
  cleanup s

/-- The delay, in milliseconds, that `resetRespondTimer` passes to
`setTimeout` (bing-chat.ts line 84): the literal `8000`. -/
def respondTimeoutMs : Nat := 8000

/-- The rejection message of the response timeout (bing-chat.ts
line 83). -/
def timeoutMsg : String := "Message waiting in WebSocket has timed out"

/-- Re-arming of the response timer (bing-chat.ts lines 79-85): clear
the previous timer and schedule the timeout callback after
`respondTimeoutMs` milliseconds. -/
def resetRespondTimer (now : Nat) (s : BingChatState) : BingChatState :=
  { s with respondTimer := some (now + respondTimeoutMs) }

/-- An outbound frame written to the socket by `send` (bing-chat.ts
lines 33-35): the protocol-negotiation frame, the keepalive frame
`{type: 6}` (lines 37-39), or the type-4 query frame, of which we
track the `isStartOfSession` field sent with it. -/
inductive OutFrame where
  | negotiate
  | keepalive
  | query (isStartOfSession : Bool)
deriving DecidableEq, Repr

/-- The final result object assembled by variant 2's `sendMessage`
(bing-chat.ts lines 344-352 and 482-489); the fields the claims are
about. -/
structure ChatMessageResult where
  author : String
  text : String
  conversationId : String
  conversationExpiryTime : Option String
deriving DecidableEq, Repr

/-- The `item` payload of a type-2 completion frame
(`response.item`): an optional message list plus the echoed
conversation id and expiry time. -/
structure CompletionItem where
  messages : Option (List ChatMessagePartial)
  conversationId : String
  conversationExpiryTime : String
deriving DecidableEq, Repr

/-- An observable action of the session: an invocation of the
(throttled) progress callback with the current snapshot, an
invocation of `resolve` (variant 1 resolves `response.item.messages`,
variant 2 resolves the assembled result), an invocation of `reject`
with an error message, or a frame written to the socket. -/
inductive Ev where
  | progress (snapshot : List ChatMessagePartial)
  | resolve1 (messages : Option (List ChatMessagePartial))
  | resolve2 (result : ChatMessageResult)
  | reject (msg : String)
  | send (f : OutFrame)
deriving DecidableEq, Repr

/-- Recognizer for the keepalive frame among emitted actions. -/
def isKeepaliveEv : Ev → Bool
  | Ev.send OutFrame.keepalive => true
  | _ => false

/-- Recognizer for rejections among emitted actions. -/
def isRejectEv : Ev → Bool
  | Ev.reject _ => true
  | _ => false

/-- Number of keepalive frames among the emitted actions. -/
def countKeepalives (evs : List Ev) : Nat :=
  (evs.filter isKeepaliveEv).length

/-- The rejection message built by the `error` handler
(bing-chat.ts line 100). -/
def wsErrorText (err : String) : String :=
  "WebSocket error: " ++ err

/-- Variant 1's WebSocket `error` handler (bing-chat.ts lines 98-101;
variant 2 lines 376-379 is identical): run `cleanup` and reject the
pending promise with the wrapped error text. -/
def onError (err : String) (s : BingChatState) : BingChatState × List Ev :=
  (cleanup s, [Ev.reject (wsErrorText err)])

/-- Variant 1's WebSocket `close` handler (bing-chat.ts lines
102-104; variant 2 lines 380-382 is identical): run `cleanup` only —
no call to `reject` or `resolve` appears in the handler. -/
def onClose (s : BingChatState) : BingChatState × List Ev :=
  (cleanup s, [])

/-- Firing of the response timer (bing-chat.ts lines 81-84): run
`cleanup` and reject the pending promise with the timeout message. -/
def fireRespondTimer (s : BingChatState) : BingChatState × List Ev :=
  (cleanup s, [Ev.reject timeoutMsg])

/-- Variant 1's WebSocket `open` handler (bing-chat.ts lines
106-109): re-arm the response timer and send the
protocol-negotiation frame. -/
def onOpen (now : Nat) (s : BingChatState) : BingChatState × List Ev :=
  (resetRespondTimer now s, [Ev.send OutFrame.negotiate])

/-- One decoded segment of an inbound transport payload, after the
split on the record-separator byte, the removal of empty segments and
`JSON.parse` (bing-chat.ts lines 112-123): the handshake
acknowledgment segment (the raw string consisting of the two
characters open brace and close brace), a type-1 partial update
carrying `arguments[0].messages[0]`, a type-2 completion carrying
`item`, or anything else, including segments that fail to parse. -/
inductive Msg where
  | initAck
  | update (m : ChatMessagePartial)
  | complete (item : CompletionItem)
  | other
deriving DecidableEq, Repr

/-- State visible to variant 1's `message` handler: the instance
fields plus the closure-local `received` counter and `updateMessages`
accumulator (bing-chat.ts lines 76-77), which `cleanup` does not
touch. -/
structure V1State where
  chat : BingChatState
  received : Nat
  updateMessages : List ChatMessagePartial
deriving DecidableEq, Repr

/-- One iteration of variant 1's for-loop over the decoded messages
(bing-chat.ts lines 184-206): a type-1 frame is merged into
`updateMessages` and the throttled progress callback is invoked with
the new accumulator; a type-2 frame runs `cleanup` and invokes
`resolve(response.item.messages)`; every other message is skipped. -/
def processMsg1 (st : V1State) (msg : Msg) : V1State × List Ev :=
  match msg with
  | Msg.update m =>
      let ums := mergeUpdate st.updateMessages m
      ({ st with updateMessages := ums }, [Ev.progress ums])
  | Msg.complete item =>
      ({ st with chat := cleanup st.chat }, [Ev.resolve1 item.messages])
  | _ => (st, [])

/-- Variant 1's for-loop over all decoded messages of one payload
(bing-chat.ts lines 184-206), collecting the emitted actions in
order. -/
def processMsgs1 (st : V1State) : List Msg → V1State × List Ev
  | [] => (st, [])
  | msg :: rest =>
      let (st2, evs) := processMsg1 st msg
      let (st3, evs2) := processMsgs1 st2 rest
      (st3, evs ++ evs2)

/-- Variant 1's `message` handler for one inbound transport payload
(bing-chat.ts lines 111-208), with the payload given as its decoded
segment list `objects`.  An empty payload returns immediately;
otherwise the response timer is re-armed, a keepalive is sent when
`received++ % 10 === 0`, and then either the single handshake
acknowledgment triggers the query frame (capturing the current
`isStartOfSession`, then clearing it and re-arming the conversation
timer) or the message loop runs. -/
def onMessage1 (now : Nat) (objects : List Msg) (st : V1State) :
    V1State × List Ev :=
  if objects.isEmpty then (st, [])
  else
    let st1 : V1State := { st with chat := resetRespondTimer now st.chat }
    let keep : Bool := st1.received % 10 = 0
    let st2 : V1State := { st1 with received := st1.received + 1 }
    let evs : List Ev := if keep then [Ev.send OutFrame.keepalive] else []
    if objects = [Msg.initAck] then
      let sendEv := Ev.send (OutFrame.query st2.chat.isStartOfSession)
      let chat2 :=
        resetConversationTimer now
          { st2.chat with isStartOfSession := false }
      ({ st2 with chat := chat2 }, evs ++ [sendEv])
    else
      let (st3, evs2) := processMsgs1 st2 objects
      (st3, evs ++ evs2)

/-- A run of variant 1's `message` handler over a sequence of inbound
transport payloads, collecting all emitted actions in order. -/
def runMessages1 (now : Nat) (st : V1State) :
    List (List Msg) → V1State × List Ev
  | [] => (st, [])
  | p :: rest =>
      let (st2, evs) := onMessage1 now p st
      let (st3, evs2) := runMessages1 now st2 rest
      (st3, evs ++ evs2)

/-- JavaScript truthiness of an optional string field: `undefined`
and the empty string are falsy, every other string is truthy. -/
def truthyOptStr : Option String → Bool
  | none => false
  | some s => !(s == "")

/-- Variant 2's assembly of the final result from a type-2 completion
frame (bing-chat.ts lines 476-489): keep the messages without a
(truthy) `messageType`, take the last one; when it exists, copy the
echoed conversation id and expiry time and the last message's author
and text into the result. -/
def handleComplete2 (item : CompletionItem) (result : ChatMessageResult) :
    Option ChatMessageResult :=
  let validMessages :=
    item.messages.map (fun l => l.filter (fun m => !truthyOptStr m.messageType))
  let lastMessage := validMessages.bind (fun l => l.getLast?)
  match lastMessage with
  | some lm =>
      some
        { result with
          conversationId := item.conversationId
          conversationExpiryTime := some item.conversationExpiryTime
          author := lm.author
          text := lm.text }
  | none => none

/-- Variant 2's type-2 branch (bing-chat.ts lines 475-493): when the
filtered message list has a last element, assemble the result, run
`cleanup` (variant 2's throwing version) and resolve; otherwise the
frame is ignored and the exchange keeps waiting. -/
def onComplete2 (item : CompletionItem) (result : ChatMessageResult)
    (s : BingChatState) : Except String (BingChatState × List Ev) :=
  match handleComplete2 item result with
  | some r => (cleanup2 s).map (fun s2 => (s2, [Ev.resolve2 r]))
  | none => Except.ok (s, [])

/-- Settlement of one registered `initConversation` caller: its
`resolve` is invoked, or its `reject` is invoked with an error
message. -/
inductive InitEv where
  | resolved (caller : Nat)
  | rejected (caller : Nat) (msg : String)
deriving DecidableEq, Repr

/-- Outcome of the HTTP request to the conversation-creation
endpoint. -/
structure FetchResult where
  ok : Bool
  status : Nat
  statusText : String
  conversationId : String
  clientId : String
  conversationSignature : String
deriving DecidableEq, Repr

/-- The rejection message built from a non-success HTTP response
(bing-chat.ts lines 262-264). -/
def initErrText (status : Nat) (statusText : String) : String :=
  "unexpected HTTP error initConversation " ++ toString status ++ ": "
    ++ statusText

/-- The synchronous prefix of variant 1's `initConversation`
(bing-chat.ts lines 213-219): the caller's resolve/reject pair is
pushed onto `initConversationCallback`; if a creation is already in
flight the function returns without touching the network, otherwise
the in-flight flag is set and one `fetch` is issued (`fetchCount` is
incremented). -/
def initCall (caller : Nat) (s : BingChatState) (fetchCount : Nat) :
    BingChatState × Nat :=
  let s1 :=
    { s with
      initConversationCallback := s.initConversationCallback ++ [caller] }
  if s1.initializingConversation then (s1, fetchCount)
  else ({ s1 with initializingConversation := true }, fetchCount + 1)

/-- A sequence of `initConversation` calls arriving while the
previous ones have not yet completed. -/
def initCalls (s : BingChatState) (fetchCount : Nat) :
    List Nat → BingChatState × Nat
  | [] => (s, fetchCount)
  | c :: cs =>
      let (s2, f2) := initCall c s fetchCount
      initCalls s2 f2 cs

/-- The continuation of variant 1's `initConversation` after the
single in-flight `fetch` settles (bing-chat.ts lines 252-267): on a
success response the handle fields are stored, `isStartOfSession` is
reset, the conversation timer is re-armed and every registered
callback is resolved; on a non-success response every registered
callback is rejected with the same HTTP-status error; in both cases
the in-flight flag is cleared and the callback list emptied. -/
def initComplete (now : Nat) (res : FetchResult) (s : BingChatState) :
    BingChatState × List InitEv :=
  if res.ok then
    let s2 :=
      resetConversationTimer now
        { s with
          conversationExpired := false
          conversationId := some res.conversationId
          clientId := some res.clientId
          conversationSignature := some res.conversationSignature
          isStartOfSession := true }
    ({ s2 with
        initializingConversation := false
        initConversationCallback := [] },
      s.initConversationCallback.map InitEv.resolved)
  else
    ({ s with
        initializingConversation := false
        initConversationCallback := [] },
      s.initConversationCallback.map
        (fun c => InitEv.rejected c (initErrText res.status res.statusText)))

/-- An example session state in the middle of an exchange: a socket
is assigned, the handle is considered live, both timers are armed. -/
def exInFlight : BingChatState :=
  { ws := some ()
    initializingConversation := false
    initConversationCallback := []
    conversationExpired := false
    conversationId := none
    clientId := none
    conversationSignature := none
    isStartOfSession := false
    conversationTimer := some 86400
    respondTimer := some 8000 }

/-- C2: the conversation (inactivity) timer is claimed to expire
after 24 hours; the code arms `setTimeout` with the literal
`3600 * 24`, i.e. 86,400 milliseconds (about 86 seconds), not
86,400,000, so the session expires roughly 86 seconds after the timer
is armed; firing it does run `cleanup` and mark the session
expired. -/
theorem c2_conversation_timer_is_86400_ms :
    conversationTimerDelayMs = 86400 ∧
    conversationTimerDelayMs ≠ 24 * 3600 * 1000 ∧
    (∀ (now : Nat) (s : BingChatState),
      (resetConversationTimer now s).conversationTimer =
        some (now + 86400)) ∧
    (∀ s : BingChatState,
      (fireConversationTimer s).conversationExpired = true ∧
      (fireConversationTimer s).conversationId = none) :=
  ⟨rfl, by decide, fun _ _ => rfl, fun _ => ⟨rfl, rfl⟩⟩

/-- C3 counterexample: on a session with an in-flight exchange, the
`close` handler runs `cleanup` but emits no rejection at all, so a
close event without a preceding error event leaves the pending
`sendMessage` promise unsettled, contradicting the claim that a close
event rejects it. -/
theorem c3_close_does_not_reject_counterexample :
    onClose exInFlight = (clearedState, []) ∧
    (onClose exInFlight).2.any isRejectEv = false := by decide

/-- C3 amended: a transport error event or the response timer firing
tears down the transport, clears both timers and all session state,
and rejects the pending exchange with the corresponding error; a
transport close event runs the same teardown but does not reject, so
a close without a preceding error or timeout leaves the pending
exchange unsettled. -/
theorem c3_error_rejects_close_cleans_only (s : BingChatState)
    (err : String) :
    onError err s = (clearedState, [Ev.reject (wsErrorText err)]) ∧
    onClose s = (clearedState, []) ∧
    fireRespondTimer s = (clearedState, [Ev.reject timeoutMsg]) ∧
    clearedState.ws = none ∧
    clearedState.respondTimer = none ∧
    clearedState.conversationTimer = none ∧
    clearedState.conversationExpired = true :=
  ⟨rfl, rfl, rfl, rfl, rfl, rfl, rfl⟩

/-- C9 counterexample: variant 2's teardown routine is not safe to
call in any state: after one successful `cleanup` (which leaves
`ws = undefined`) a second call evaluates `this.ws!.terminate()` on
`undefined` and throws; the same happens when it is called before any
transport has ever been opened (for example when the conversation
timer armed by `initConversation` fires before a socket exists). -/
theorem c9_second_cleanup_throws_counterexample :
    cleanup2 exInFlight = Except.ok clearedState ∧
    cleanup2 clearedState = Except.error wsUndefinedError := ⟨rfl, rfl⟩

/-- C9 amended: variant 1's `cleanup` (optional chaining on `ws`) is
idempotent, total and a fixed point on the cleared state, so
redundant calls are harmless no-ops; variant 2's `cleanup`
unconditionally dereferences `ws`, so whenever it succeeds once,
calling it again throws a TypeError instead of being a no-op. -/
theorem c9_cleanup_idempotent_variant2_throws (s t : BingChatState)
    (h : cleanup2 s = Except.ok t) :
    cleanup (cleanup s) = cleanup s ∧
    cleanup clearedState = clearedState ∧
    cleanup2 t = Except.error wsUndefinedError := by
  refine ⟨rfl, rfl, ?_⟩
  cases hw : s.ws with
  | none => simp [cleanup2, hw] at h
  | some u =>
      simp only [cleanup2, hw] at h
      cases h
      rfl

/-- C9 witness: the amended statement at a concrete mid-exchange
state, whose variant-2 cleanup succeeds and yields the cleared
state. -/
theorem c9_cleanup_witness :
    cleanup (cleanup exInFlight) = cleanup exInFlight ∧
    cleanup clearedState = clearedState ∧
    cleanup2 clearedState = Except.error wsUndefinedError :=
  c9_cleanup_idempotent_variant2_throws exInFlight clearedState rfl

/-- C4: when a type-2 completion frame's message list holds any number
of status fragments (truthy `messageType`) and exactly one non-status
fragment, variant 2 resolves the exchange with the final result whose
text (and author) come from that one fragment, copies the echoed
conversation id and expiry time, and runs `cleanup`, tearing down the
transport and clearing the session state. -/
theorem c4_completion_single_valid_fragment
    (item : CompletionItem) (l : List ChatMessagePartial)
    (m : ChatMessagePartial) (result : ChatMessageResult)
    (s : BingChatState)
    (hmsgs : item.messages = some l)
    (hfilter : l.filter (fun x => !truthyOptStr x.messageType) = [m])
    (hws : s.ws = some ()) :
    onComplete2 item result s =
      Except.ok
        ({ s with
            ws := none
            conversationExpired := true
            conversationId := none
            clientId := none
            conversationSignature := none
            isStartOfSession := true
            conversationTimer := none
            respondTimer := none },
          [Ev.resolve2
            { result with
                conversationId := item.conversationId
                conversationExpiryTime := some item.conversationExpiryTime
                author := m.author
                text := m.text }]) := by
  simp [onComplete2, handleComplete2, hmsgs, hfilter, cleanup2, hws,
    Except.map]

/-- A status `messageType` value occurring in the backend stream. -/
def searchQueryType : String := "InternalSearchQuery"

/-- A second status `messageType` value. -/
def loaderMessageType : String := "InternalLoaderMessage"

/-- An example conversation expiry time echoed by the backend. -/
def exExpiry : String := "2023-03-01T00:00:00Z"

/-- A status fragment (truthy `messageType`). -/
def exStatusMsg : ChatMessagePartial :=
  { messageId := "s1"
    author := "bot"
    messageType := some searchQueryType
    text := "searching the web" }

/-- A second status fragment. -/
def exStatusMsg2 : ChatMessagePartial :=
  { messageId := "s2"
    author := "bot"
    messageType := some loaderMessageType
    text := "generating answers" }

/-- The single non-status fragment of the example completion. -/
def exAnswerMsg : ChatMessagePartial :=
  { messageId := "a1"
    author := "bot"
    messageType := none
    text := "the final answer" }

/-- A completion item with two status fragments and one non-status
fragment. -/
def exItem : CompletionItem :=
  { messages := some [exStatusMsg, exAnswerMsg, exStatusMsg2]
    conversationId := "conv-2"
    conversationExpiryTime := exExpiry }

/-- A completion item carrying only status fragments. -/
def exStatusOnlyItem : CompletionItem :=
  { messages := some [exStatusMsg, exStatusMsg2]
    conversationId := "conv-2"
    conversationExpiryTime := exExpiry }

/-- The initial result object of an exchange in variant 2. -/
def exResult : ChatMessageResult :=
  { author := "bot"
    text := ""
    conversationId := "conv-1"
    conversationExpiryTime := none }

/-- C4 witness: the completion theorem at a concrete frame with two
status fragments and one non-status fragment. -/
theorem c4_completion_witness :
    onComplete2 exItem exResult exInFlight =
      Except.ok
        (clearedState,
          [Ev.resolve2
            { author := "bot"
              text := "the final answer"
              conversationId := "conv-2"
              conversationExpiryTime := some exExpiry }]) := by
  exact c4_completion_single_valid_fragment exItem
    [exStatusMsg, exAnswerMsg, exStatusMsg2] exAnswerMsg exResult exInFlight
    rfl (by decide) rfl

/-- C10: a type-2 completion frame whose message list holds no
non-status fragment (only status fragments, an empty list, or an
absent list) neither resolves nor rejects the exchange and does not
run `cleanup`: the state is returned unchanged with no emitted
action, so the exchange keeps waiting for further frames. -/
theorem c10_completion_without_valid_fragment_ignored
    (item : CompletionItem) (result : ChatMessageResult)
    (s : BingChatState)
    (h : (item.messages.getD []).filter
        (fun x => !truthyOptStr x.messageType) = []) :
    onComplete2 item result s = Except.ok (s, []) := by
  cases hm : item.messages with
  | none => simp [onComplete2, handleComplete2, hm]
  | some l =>
      rw [hm] at h
      simp only [Option.getD_some] at h
      simp [onComplete2, handleComplete2, hm, h]

/-- C10 witness: the status-only completion theorem at a concrete
frame holding two status fragments. -/
theorem c10_completion_witness :
    onComplete2 exStatusOnlyItem exResult exInFlight =
      Except.ok (exInFlight, []) :=
  c10_completion_without_valid_fragment_ignored exStatusOnlyItem exResult
    exInFlight (by decide)

theorem initCalls_busy (cs : List Nat) (s : BingChatState) (f : Nat)
    (h : s.initializingConversation = true) :
    initCalls s f cs =
      ({ s with initConversationCallback :=
          s.initConversationCallback ++ cs }, f) := by
  induction cs generalizing s with
  | nil => simp [initCalls]
  | cons c rest ih =>
      simp only [initCalls, initCall, if_pos h]
      rw [ih { s with initConversationCallback :=
          s.initConversationCallback ++ [c] } h]
      simp [List.append_assoc]

/-- Variant 1's `initConversation` (bing-chat.ts lines 213-268) is
single-flight: while a handle creation is already in flight, every
further caller only registers its resolve/reject pair and issues no
additional fetch, so a burst of callers starting from an idle session
performs exactly one network request; when the single in-flight fetch
settles, all registered callers are resolved together on success and
all are rejected together with the same HTTP-status error on failure,
after which the in-flight flag is cleared. -/
theorem init_single_flight_v1 (c : Nat) (cs : List Nat) (s : BingChatState)
    (f now : Nat) (res : FetchResult)
    (h : s.initializingConversation = false) :
    (initCalls s f (c :: cs)).2 = f + 1 ∧
    (initCalls s f (c :: cs)).1.initConversationCallback =
      s.initConversationCallback ++ c :: cs ∧
    (initCalls s f (c :: cs)).1.initializingConversation = true ∧
    (res.ok = true →
      (initComplete now res (initCalls s f (c :: cs)).1).2 =
        (s.initConversationCallback ++ c :: cs).map InitEv.resolved) ∧
    (res.ok = false →
      (initComplete now res (initCalls s f (c :: cs)).1).2 =
        (s.initConversationCallback ++ c :: cs).map
          (fun k =>
            InitEv.rejected k (initErrText res.status res.statusText))) ∧
    (initComplete now res
        (initCalls s f (c :: cs)).1).1.initializingConversation = false ∧
    (initComplete now res
        (initCalls s f (c :: cs)).1).1.initConversationCallback = [] := by
  have hfalse : ¬ (({ s with initConversationCallback :=
      s.initConversationCallback ++ [c] } :
        BingChatState)).initializingConversation = true := by
    simp [h]
  have step : initCalls s f (c :: cs) =
      ({ s with
          initConversationCallback := s.initConversationCallback ++ c :: cs,
          initializingConversation := true }, f + 1) := by
    simp only [initCalls, initCall, if_neg hfalse]
    rw [initCalls_busy _ _ _ rfl]
    simp [List.append_assoc]
  rw [step]
  refine ⟨rfl, rfl, rfl, ?_, ?_, ?_, ?_⟩
  · intro hok
    simp [initComplete, hok]
  · intro hko
    simp [initComplete, hko]
  · by_cases hok : res.ok <;> simp [initComplete, hok]
  · by_cases hok : res.ok <;> simp [initComplete, hok]

/-- A failing HTTP response used to exercise the rejection path. -/
def exFetchFail : FetchResult :=
  { ok := false
    status := 429
    statusText := "Too Many Requests"
    conversationId := ""
    clientId := ""
    conversationSignature := "" }

/-- A successful HTTP response to the conversation-creation
request. -/
def exFetchOk : FetchResult :=
  { ok := true
    status := 200
    statusText := "OK"
    conversationId := "conv-new"
    clientId := "client-new"
    conversationSignature := "sig-new" }

/-- Variant 2's `initConversation` (bing-chat.ts lines 507-554): it
has no in-flight guard and no callback list, so every invocation
issues its own `fetch` (the counter is incremented unconditionally);
on a success response the handle fields are stored, `isStartOfSession`
is reset and the conversation timer re-armed, on a non-success
response the call throws the HTTP-status error.  Note that
`conversationExpired` is cleared only after the fetch resolves, so a
second `sendMessage` overlapping the first still sees it `true` and
invokes `initConversation` again. -/
def initConversation2 (now : Nat) (res : FetchResult) (s : BingChatState)
    (fetchCount : Nat) : Except String BingChatState × Nat :=
  if res.ok then
    (Except.ok
      (resetConversationTimer now
        { s with
          conversationExpired := false
          conversationId := some res.conversationId
          clientId := some res.clientId
          conversationSignature := some res.conversationSignature
          isStartOfSession := true }),
      fetchCount + 1)
  else
    (Except.error (initErrText res.status res.statusText), fetchCount + 1)

/-- C5 counterexample: variant 2's `initConversation` issues one
network request per invocation.  Starting from an expired session, a
first call brings the request count to 1; a second caller arriving
while that creation is still pending (the session state unchanged,
one request already in flight) brings the count to 2, not 1 — the
later caller does issue an additional network request, refuting the
claim that exactly one request is made. -/
theorem c5_duplicate_fetch_counterexample :
    (initConversation2 0 exFetchOk clearedState 0).2 = 1 ∧
    (initConversation2 0 exFetchOk clearedState 1).2 = 2 ∧
    (initConversation2 0 exFetchOk clearedState 1).2 ≠ 1 := by decide

/-- C5 amended: variant 1's `initConversation` is single-flight — a
caller arriving while a creation is in flight only registers its
resolve/reject pair and issues no additional fetch, so a burst of
callers on an idle session performs exactly one network request, and
when the in-flight fetch settles all registered callers are resolved
together on success or all rejected together with the same
HTTP-status error on failure; variant 2's `initConversation`,
however, has no in-flight guard: every invocation, including one made
while a creation is already pending, issues its own network
request. -/
theorem c5_single_flight_v1_duplicate_fetch_v2 (c : Nat) (cs : List Nat)
    (s s2 : BingChatState) (f f2 now now2 : Nat) (res res2 : FetchResult)
    (h : s.initializingConversation = false) :
    (initCalls s f (c :: cs)).2 = f + 1 ∧
    (initCalls s f (c :: cs)).1.initConversationCallback =
      s.initConversationCallback ++ c :: cs ∧
    (initCalls s f (c :: cs)).1.initializingConversation = true ∧
    (res.ok = true →
      (initComplete now res (initCalls s f (c :: cs)).1).2 =
        (s.initConversationCallback ++ c :: cs).map InitEv.resolved) ∧
    (res.ok = false →
      (initComplete now res (initCalls s f (c :: cs)).1).2 =
        (s.initConversationCallback ++ c :: cs).map
          (fun k =>
            InitEv.rejected k (initErrText res.status res.statusText))) ∧
    (initComplete now res
        (initCalls s f (c :: cs)).1).1.initializingConversation = false ∧
    (initComplete now res
        (initCalls s f (c :: cs)).1).1.initConversationCallback = [] ∧
    (initConversation2 now2 res2 s2 f2).2 = f2 + 1 := by
  obtain ⟨h1, h2, h3, h4, h5, h6, h7⟩ :=
    init_single_flight_v1 c cs s f now res h
  refine ⟨h1, h2, h3, h4, h5, h6, h7, ?_⟩
  by_cases hok : res2.ok <;> simp [initConversation2, hok]

/-- C5 witness: three callers arriving on an idle session in variant
1, with the single in-flight fetch failing with HTTP status 429: one
request is issued and all three callers are rejected together with
the same error; and in variant 2 a call overlapping a pending
creation issues a second request. -/
theorem c5_corrected_witness :
    (initCalls clearedState 0 (1 :: [2, 3])).2 = 0 + 1 ∧
    (initCalls clearedState 0 (1 :: [2, 3])).1.initConversationCallback =
      clearedState.initConversationCallback ++ 1 :: [2, 3] ∧
    (initCalls clearedState 0 (1 :: [2, 3])).1.initializingConversation =
      true ∧
    (exFetchFail.ok = true →
      (initComplete 0 exFetchFail (initCalls clearedState 0 (1 :: [2, 3])).1).2 =
        (clearedState.initConversationCallback ++ 1 :: [2, 3]).map
          InitEv.resolved) ∧
    (exFetchFail.ok = false →
      (initComplete 0 exFetchFail (initCalls clearedState 0 (1 :: [2, 3])).1).2 =
        (clearedState.initConversationCallback ++ 1 :: [2, 3]).map
          (fun k =>
            InitEv.rejected k
              (initErrText exFetchFail.status exFetchFail.statusText))) ∧
    (initComplete 0 exFetchFail
        (initCalls clearedState 0 (1 :: [2, 3])).1).1.initializingConversation =
      false ∧
    (initComplete 0 exFetchFail
        (initCalls clearedState 0 (1 :: [2, 3])).1).1.initConversationCallback =
      [] ∧
    (initConversation2 0 exFetchOk clearedState 1).2 = 1 + 1 :=
  c5_single_flight_v1_duplicate_fetch_v2 1 [2, 3] clearedState clearedState
    0 1 0 0 exFetchFail exFetchOk rfl

/-- Recognizer for type-2 completion frames. -/
def Msg.isComplete : Msg → Bool
  | Msg.complete _ => true
  | _ => false

theorem processMsg1_received (st : V1State) (m : Msg) :
    ((processMsg1 st m).1).received = st.received := by
  cases m <;> rfl

theorem processMsgs1_received (msgs : List Msg) (st : V1State) :
    ((processMsgs1 st msgs).1).received = st.received := by
  induction msgs generalizing st with
  | nil => rfl
  | cons m rest ih =>
      simp only [processMsgs1]
      rw [ih]
      exact processMsg1_received st m

theorem processMsg1_chat (st : V1State) (m : Msg)
    (h : Msg.isComplete m = false) :
    ((processMsg1 st m).1).chat = st.chat := by
  cases m with
  | complete item => simp [Msg.isComplete] at h
  | update x => rfl
  | initAck => rfl
  | other => rfl

theorem processMsgs1_chat (msgs : List Msg) (st : V1State)
    (h : msgs.all (fun m => !(Msg.isComplete m)) = true) :
    ((processMsgs1 st msgs).1).chat = st.chat := by
  induction msgs generalizing st with
  | nil => rfl
  | cons m rest ih =>
      simp only [List.all_cons, Bool.and_eq_true, Bool.not_eq_true'] at h
      simp only [processMsgs1]
      rw [ih _ h.2]
      exact processMsg1_chat st m h.1

theorem processMsg1_no_keepalive (st : V1State) (m : Msg) :
    countKeepalives (processMsg1 st m).2 = 0 := by
  cases m <;> rfl

theorem countKeepalives_append (a b : List Ev) :
    countKeepalives (a ++ b) = countKeepalives a + countKeepalives b := by
  simp [countKeepalives, List.filter_append]

theorem processMsgs1_no_keepalive (msgs : List Msg) (st : V1State) :
    countKeepalives (processMsgs1 st msgs).2 = 0 := by
  induction msgs generalizing st with
  | nil => rfl
  | cons m rest ih =>
      simp only [processMsgs1]
      rw [countKeepalives_append, processMsg1_no_keepalive, ih]

/-- C6: the response timer is armed with 8000 milliseconds; the
`open` handler arms it, every inbound payload carrying at least one
decoded frame re-arms it (here stated for payloads that do not settle
the exchange, since a completion frame runs `cleanup` afterwards),
and when it fires the pending exchange is rejected with the timeout
error while the transport is torn down and all session state is
cleared. -/
theorem c6_response_timer_rearm_and_timeout (now : Nat)
    (objects : List Msg) (st : V1State) (s : BingChatState)
    (hne : objects ≠ [])
    (hnc : objects.all (fun m => !(Msg.isComplete m)) = true) :
    respondTimeoutMs = 8000 ∧
    ((onOpen now s).1).respondTimer = some (now + respondTimeoutMs) ∧
    ((onMessage1 now objects st).1).chat.respondTimer =
      some (now + respondTimeoutMs) ∧
    fireRespondTimer s = (clearedState, [Ev.reject timeoutMsg]) ∧
    clearedState.ws = none ∧
    clearedState.respondTimer = none ∧
    clearedState.conversationExpired = true := by
  refine ⟨rfl, rfl, ?_, rfl, rfl, rfl, rfl⟩
  have hempty : objects.isEmpty = false := by
    cases objects with
    | nil => exact absurd rfl hne
    | cons a l => rfl
  by_cases hinit : objects = [Msg.initAck]
  · simp [onMessage1, hempty, hinit, resetConversationTimer,
      resetRespondTimer]
  · simp only [onMessage1, hempty, Bool.false_eq_true, if_false,
      if_neg hinit]
    rw [processMsgs1_chat _ _ hnc]
    rfl

/-- C6 witness: a payload carrying one unrecognized frame re-arms
the timer on a mid-exchange state. -/
theorem c6_response_timer_witness :
    respondTimeoutMs = 8000 ∧
    ((onOpen 100 exInFlight).1).respondTimer =
      some (100 + respondTimeoutMs) ∧
    ((onMessage1 100 [Msg.other]
        { chat := exInFlight, received := 3,
          updateMessages := [] }).1).chat.respondTimer =
      some (100 + respondTimeoutMs) ∧
    fireRespondTimer exInFlight = (clearedState, [Ev.reject timeoutMsg]) ∧
    clearedState.ws = none ∧
    clearedState.respondTimer = none ∧
    clearedState.conversationExpired = true :=
  c6_response_timer_rearm_and_timeout 100 [Msg.other]
    { chat := exInFlight, received := 3, updateMessages := [] }
    exInFlight (by decide) (by decide)

theorem received_onMessage1 (now : Nat) (objects : List Msg)
    (st : V1State) (hne : objects ≠ []) :
    ((onMessage1 now objects st).1).received = st.received + 1 := by
  have hempty : objects.isEmpty = false := by
    cases objects with
    | nil => exact absurd rfl hne
    | cons a l => rfl
  by_cases hinit : objects = [Msg.initAck]
  · simp [onMessage1, hempty, hinit]
  · simp only [onMessage1, hempty, Bool.false_eq_true, if_false,
      if_neg hinit]
    rw [processMsgs1_received]

theorem countKeepalives_onMessage1 (now : Nat) (objects : List Msg)
    (st : V1State) (hne : objects ≠ []) :
    countKeepalives (onMessage1 now objects st).2 =
      if st.received % 10 = 0 then 1 else 0 := by
  have hempty : objects.isEmpty = false := by
    cases objects with
    | nil => exact absurd rfl hne
    | cons a l => rfl
  by_cases hinit : objects = [Msg.initAck]
  · subst hinit
    by_cases hk : st.received % 10 = 0 <;>
      simp [onMessage1, hk, countKeepalives, isKeepaliveEv]
  · simp only [onMessage1, hempty, Bool.false_eq_true, if_false,
      if_neg hinit]
    rw [countKeepalives_append, processMsgs1_no_keepalive]
    by_cases hk : st.received % 10 = 0 <;> simp [hk] <;> rfl

/-- The number of payload indices `k` with `r ≤ k < r + n` at which
the handler's `received++ % 10 === 0` test succeeds. -/
def expectedKeepalives : Nat → Nat → Nat
  | _, 0 => 0
  | r, n + 1 =>
      (if r % 10 = 0 then 1 else 0) + expectedKeepalives (r + 1) n

theorem expectedKeepalives_closed (n r : Nat) :
    expectedKeepalives r n = (r + n + 9) / 10 - (r + 9) / 10 := by
  induction n generalizing r with
  | zero => simp [expectedKeepalives]
  | succ n ih =>
      rw [expectedKeepalives, ih (r + 1)]
      by_cases hk : r % 10 = 0 <;> simp [hk] <;> omega

theorem countKeepalives_run (now : Nat) (payloads : List (List Msg))
    (st : V1State) (h : ∀ p ∈ payloads, p ≠ []) :
    countKeepalives (runMessages1 now st payloads).2 =
      expectedKeepalives st.received payloads.length := by
  induction payloads generalizing st with
  | nil => rfl
  | cons p rest ih =>
      have hp : p ≠ [] := h p (List.mem_cons_self p rest)
      have hr : ∀ q ∈ rest, q ≠ [] := fun q hq =>
        h q (List.mem_cons_of_mem p hq)
      simp only [runMessages1, List.length_cons]
      rw [countKeepalives_append, countKeepalives_onMessage1 _ _ _ hp,
        ih _ hr, received_onMessage1 _ _ _ hp]
      rfl

/-- A fresh per-exchange state: `received = 0` and an empty
accumulator, as set up at the start of `sendMessage`
(bing-chat.ts lines 76-77). -/
def freshV1 : V1State :=
  { chat := exInFlight, received := 0, updateMessages := [] }

/-- C7 counterexample: the keepalive test is `received++ % 10 === 0`
with `received` starting at 0, so the very first inbound payload
already triggers a keepalive: after N = 1 payloads the code has sent
1 keepalive frame, while the claim predicts floor(1/10) = 0. -/
theorem c7_first_payload_keepalive_counterexample :
    countKeepalives (runMessages1 0 freshV1 [[Msg.other]]).2 = 1 ∧
    (1 : Nat) / 10 = 0 := by decide

/-- C7 amended: keepalives are sent on the 1st, 11th, 21st, ...
inbound payload (those arriving when the counter is congruent to 0
modulo 10), not the 10th, 20th, ...; consequently, after N nonempty
payloads of an exchange exactly ceil(N/10) = (N+9)/10 keepalive
frames have been sent, and a payload arriving when the counter is
not congruent to 0 modulo 10 sends none. -/
theorem c7_keepalive_count (now : Nat) (payloads : List (List Msg))
    (st st2 : V1State) (p : List Msg)
    (h0 : st.received = 0)
    (hall : ∀ q ∈ payloads, q ≠ [])
    (hp : p ≠ [])
    (h2 : st2.received % 10 ≠ 0) :
    countKeepalives (runMessages1 now st payloads).2 =
      (payloads.length + 9) / 10 ∧
    countKeepalives (onMessage1 now p st).2 = 1 ∧
    countKeepalives (onMessage1 now p st2).2 = 0 := by
  refine ⟨?_, ?_, ?_⟩
  · rw [countKeepalives_run _ _ _ hall, h0, expectedKeepalives_closed]
    omega
  · rw [countKeepalives_onMessage1 _ _ _ hp, h0]
    rfl
  · rw [countKeepalives_onMessage1 _ _ _ hp, if_neg h2]

/-- C7 witness: twelve nonempty payloads from a fresh exchange yield
ceil(12/10) = 2 keepalives; the first payload sends one; a payload
arriving at counter value 3 sends none. -/
theorem c7_keepalive_count_witness :
    countKeepalives
        (runMessages1 0 freshV1
          (List.replicate 12 [Msg.other])).2 =
      ((List.replicate 12 ([Msg.other] : List Msg)).length + 9) / 10 ∧
    countKeepalives (onMessage1 0 [Msg.other] freshV1).2 = 1 ∧
    countKeepalives (onMessage1 0 [Msg.other]
        { chat := exInFlight, received := 3, updateMessages := [] }).2 =
      0 :=
  c7_keepalive_count 0 (List.replicate 12 [Msg.other]) freshV1
    { chat := exInFlight, received := 3, updateMessages := [] }
    [Msg.other] rfl (by decide) (by decide) (by decide)

/-- A mid-exchange per-exchange state with a counter value that does
not trigger a keepalive. -/
def exMidV1 : V1State :=
  { chat := exInFlight, received := 5, updateMessages := [] }

/-- C8 counterexample: one inbound payload decoding to a type-2
completion frame followed by a type-1 update frame first invokes
`resolve` (settling the exchange and running `cleanup`) and then
still processes the update frame, invoking the throttled progress
callback after settlement; a payload with two completion frames
invokes `resolve` twice.  This refutes the claim that no progress
notification is delivered after the exchange enters the Completed
state and that `resolve` is never invoked a second time. -/
theorem c8_progress_after_resolve_counterexample :
    (onMessage1 0 [Msg.complete exItem, Msg.update exAnswerMsg]
        exMidV1).2 =
      [Ev.resolve1 exItem.messages, Ev.progress [exAnswerMsg]] ∧
    (onMessage1 0 [Msg.complete exItem, Msg.complete exItem]
        exMidV1).2 =
      [Ev.resolve1 exItem.messages, Ev.resolve1 exItem.messages] := by
  decide

/-- C8 amended: settlement is exactly-once only at the promise level
(later `resolve`/`reject` invocations on an already-settled promise
are ignored by the runtime), not at the handler level: within a
single inbound payload the for-loop keeps processing frames after a
completion frame, so a later type-1 frame still updates the
accumulator and invokes the (throttled) progress callback, and a
later type-2 frame invokes `resolve` again; an empty payload
produces no action at all. -/
theorem c8_frames_after_completion_still_processed (now : Nat)
    (st : V1State) (item item2 : CompletionItem)
    (m : ChatMessagePartial) (h : st.received % 10 ≠ 0) :
    (onMessage1 now [Msg.complete item, Msg.update m] st).2 =
      [Ev.resolve1 item.messages,
        Ev.progress (mergeUpdate st.updateMessages m)] ∧
    (onMessage1 now [Msg.complete item, Msg.complete item2] st).2 =
      [Ev.resolve1 item.messages, Ev.resolve1 item2.messages] ∧
    onMessage1 now [] st = (st, []) := by
  refine ⟨?_, ?_, rfl⟩ <;>
    simp [onMessage1, processMsgs1, processMsg1, h]

/-- C8 witness: the amended statement at a concrete payload pairing
the example completion with the example update fragment. -/
theorem c8_frames_after_completion_witness :
    (onMessage1 0 [Msg.complete exItem, Msg.update exAnswerMsg]
        exMidV1).2 =
      [Ev.resolve1 exItem.messages,
        Ev.progress (mergeUpdate exMidV1.updateMessages exAnswerMsg)] ∧
    (onMessage1 0 [Msg.complete exItem, Msg.complete exStatusOnlyItem]
        exMidV1).2 =
      [Ev.resolve1 exItem.messages,
        Ev.resolve1 exStatusOnlyItem.messages] ∧
    onMessage1 0 [] exMidV1 = (exMidV1, []) :=
  c8_frames_after_completion_still_processed 0 exMidV1 exItem
    exStatusOnlyItem exAnswerMsg (by decide)

/-- An example message id queried in the C1 witness. -/
def exIdX : String := "x"

/-- An example fragment stream in which the id `x` occurs twice, with
different texts, around a fragment with id `y`. -/
def exFrames : List ChatMessagePartial :=
  [{ messageId := "x", author := "bot", messageType := none,
      text := "hel" },
    { messageId := "y", author := "bot",
      messageType := some searchQueryType, text := "searching" },
    { messageId := "x", author := "bot", messageType := none,
      text := "hello wor" }]

/-- C1 witness: the accumulation theorem at a concrete stream where a
later fragment replaces an earlier one with the same id. -/
theorem c1_accumulate_witness :
    (accumulate exFrames).find? (fun x => x.messageId == exIdX) =
      lastWrite exFrames exIdX ∧
    (accumulate (exFrames.take 3)).map (fun x => x.messageId) =
      firstSeenIds ((exFrames.take 3).map (fun x => x.messageId)) :=
  c1_last_write_wins_first_seen_order exFrames exIdX 3

/-- An example socket error text. -/
def exErrStr : String := "read ECONNRESET"

/-- C3 witness: the amended handler statement at a concrete
mid-exchange state and error. -/
theorem c3_handlers_witness :
    onError exErrStr exInFlight =
      (clearedState, [Ev.reject (wsErrorText exErrStr)]) ∧
    onClose exInFlight = (clearedState, []) ∧
    fireRespondTimer exInFlight = (clearedState, [Ev.reject timeoutMsg]) ∧
    clearedState.ws = none ∧
    clearedState.respondTimer = none ∧
    clearedState.conversationTimer = none ∧
    clearedState.conversationExpired = true :=
  c3_error_rejects_close_cleans_only exInFlight exErrStr

end LarkBing
